import Mathlib

/-!
Verification of the weather-analytics append-only store, normalizer and
loaders, shallowly embedded from the Python sources
(`src/data_collector.py`, `auto_update.py`, `streamlit_app.py`,
`src/visualizer.py`).

Timestamps are the strings the program stores (format
`YYYY-MM-DD HH:MM:SS`); the CSV file is modelled as `Option (List Record)`
(`none` = file absent).  Wall-clock reads (`datetime.now()`) and local-time
formatting (`datetime.fromtimestamp(..).strftime(..)`) are passed in as
explicit parameters of an `Env`, since they are ambient effects of the
Python runtime, not program logic.
-/

namespace Weather

/-- One CSV row, with exactly the fields built by
`WeatherDataCollector.extract_weather_data`.  Python floats are embedded
as `ℚ` (every value the program computes here is an exact decimal). -/
structure Record where
  timestamp : String
  date : String
  time : String
  city : String
  temperature : ℚ
  feels_like : ℚ
  temp_min : ℚ
  temp_max : ℚ
  humidity : ℤ
  pressure : ℤ
  weather_main : String
  weather_description : String
  wind_speed : ℚ
  wind_direction : ℤ
  cloudiness : ℤ
  visibility : ℚ
  sunrise : String
  sunset : String
  data_type : String
deriving DecidableEq, Repr

/-- A record that only fixes the timestamp; the store operations under
verification read no other field. -/
def mkR (ts : String) : Record where
  timestamp := ts
  date := ""
  time := ""
  city := "Hamburg"
  temperature := 0
  feels_like := 0
  temp_min := 0
  temp_max := 0
  humidity := 0
  pressure := 0
  weather_main := ""
  weather_description := ""
  wind_speed := 0
  wind_direction := 0
  cloudiness := 0
  visibility := 0
  sunrise := ""
  sunset := ""
  data_type := "current"

/-- `s[:13]` on a timestamp string: the Python hour-truncation used by
`save_to_csv` (`df_existing['timestamp'].str[:13]` and
`datetime.now().strftime('%Y-%m-%d %H')`, which is the first 13
characters of the full `%Y-%m-%d %H:%M:%S` rendering of the same
instant). -/
def hourKey (s : String) : String := ⟨s.data.take 13⟩

/-- `WeatherDataCollector.save_to_csv(weather_data)`.
`now` is `datetime.now()` rendered as `%Y-%m-%d %H:%M:%S`; the Python
code computes `today_hour = datetime.now().strftime('%Y-%m-%d %H')`,
i.e. `hourKey now`.  `weather_data = none` models a falsy argument
(`if not weather_data: return False`), `file = none` models a missing
CSV file.  Returns the new file state and the Python return value. -/
def save_to_csv (now : String) (weather_data : Option Record)
    (file : Option (List Record)) : Option (List Record) × Bool :=
  match weather_data with
  | none => (file, false)
  | some w =>
    match file with
    | some df_existing =>
      let today_hour := hourKey now
      let existing_timestamps := df_existing.map (fun r => hourKey r.timestamp)
      if today_hour ∈ existing_timestamps then
        (some df_existing, false)
      else
        (some (df_existing ++ [w]), true)
    | none => (some [w], true)

/-- Lexicographic `≤` on character lists, by code point: the order in
which Python compares the timestamp strings (and in which pandas orders
the parsed datetimes, the two agreeing on the canonical
`%Y-%m-%d %H:%M:%S` rendering). -/
def leChars : List Char → List Char → Bool
  | [], _ => true
  | _ :: _, [] => false
  | a :: as, b :: bs => if a < b then true else if a = b then leChars as bs else false

/-- String comparison as the program performs it on timestamps. -/
def tsLeB (a b : String) : Bool := leChars a.data b.data

theorem leChars_cons_iff {a b : Char} {as bs : List Char} :
    leChars (a :: as) (b :: bs) = true ↔ a < b ∨ (a = b ∧ leChars as bs = true) := by
  by_cases h : a < b
  · simp [leChars, h]
  · by_cases he : a = b
    · subst he; simp [leChars, h]
    · simp [leChars, h, he]

theorem leChars_total : ∀ a b : List Char, leChars a b = true ∨ leChars b a = true
  | [], _ => Or.inl rfl
  | _ :: _, [] => Or.inr rfl
  | a :: as, b :: bs => by
    rw [leChars_cons_iff, leChars_cons_iff]
    rcases lt_trichotomy a b with h | rfl | h
    · exact Or.inl (Or.inl h)
    · rcases leChars_total as bs with h | h
      · exact Or.inl (Or.inr ⟨rfl, h⟩)
      · exact Or.inr (Or.inr ⟨rfl, h⟩)
    · exact Or.inr (Or.inl h)

theorem leChars_trans :
    ∀ a b c : List Char, leChars a b = true → leChars b c = true → leChars a c = true
  | [], _, _, _, _ => rfl
  | _ :: _, [], _, h₁, _ => by simp [leChars] at h₁
  | _ :: _, _ :: _, [], _, h₂ => by simp [leChars] at h₂
  | a :: as, b :: bs, c :: cs, h₁, h₂ => by
    rw [leChars_cons_iff] at h₁ h₂ ⊢
    rcases h₁ with hab | ⟨rfl, h₁⟩
    · rcases h₂ with hbc | ⟨rfl, h₂⟩
      · exact Or.inl (lt_trans hab hbc)
      · exact Or.inl hab
    · rcases h₂ with hbc | ⟨rfl, h₂⟩
      · exact Or.inl hbc
      · exact Or.inr ⟨rfl, leChars_trans as bs cs h₁ h₂⟩

/-- The comparison `pandas.sort_values('timestamp')` sorts the rows by. -/
def tsLE (a b : Record) : Prop := tsLeB a.timestamp b.timestamp = true

instance : DecidableRel tsLE := fun a b =>
  inferInstanceAs (Decidable (tsLeB a.timestamp b.timestamp = true))

instance : IsTotal Record tsLE :=
  ⟨fun a b => leChars_total a.timestamp.data b.timestamp.data⟩

instance : IsTrans Record tsLE :=
  ⟨fun _ _ _ h h' => leChars_trans _ _ _ h h'⟩

/-- `df.sort_values('timestamp').reset_index(drop=True)`: the rows
reordered so that timestamps are ascending. -/
def sortByTs (l : List Record) : List Record := List.insertionSort tsLE l

/-- `WeatherDataCollector.save_multiple_to_csv(weather_data_list)`.
Filters the batch to rows whose exact `timestamp` is not already in the
file, appends the survivors, sorts by timestamp and rewrites the file;
with no survivors the file is left untouched.  Returns the new file
state and the Python return value (a `bool`, every `return` statement of
the function is `return True` or `return False`). -/
def save_multiple_to_csv (file : Option (List Record))
    (weather_data_list : List Record) : Option (List Record) × Bool :=
  match weather_data_list with
  | [] => (file, false)
  | w :: ws =>
    let df_new := w :: ws
    match file with
    | some df_existing =>
      let existing_timestamps := df_existing.map Record.timestamp
      let df_filtered := df_new.filter (fun r => r.timestamp ∉ existing_timestamps)
      if df_filtered.length > 0 then
        (some (sortByTs (df_existing ++ df_filtered)), true)
      else
        (some df_existing, false)
    | none => (some (sortByTs df_new), true)

/-- Python's implicit numeric coercion of `bool` (`True == 1`,
`False == 0`), used to compare the store's boolean returns against the
integer counts the specification promises. -/
def pyIntOfBool : Bool → ℤ
  | true => 1
  | false => 0

/-- `WeatherAutoUpdater.cleanup_old_data`.  `cutoff` is
`datetime.now() - timedelta(days=days_to_keep)` rendered in the
timestamp format (on the canonical `%Y-%m-%d %H:%M:%S` strings the
pandas datetime comparison `df['timestamp'] >= cutoff_date` agrees with
lexicographic string order).  First component: the resulting file
state; second component: the Python return value, which is `None` on
every path (the function only logs `removed_count`), modelled as
`Option ℤ` so that the absence of a returned count is visible. -/
def cleanup_old_data (file : Option (List Record)) (cutoff : String) :
    Option (List Record) × Option ℤ :=
  match file with
  | none => (none, none)
  | some df =>
    let df_cleaned := df.filter (fun r => tsLeB cutoff r.timestamp)
    if df_cleaned.length < df.length then
      (some df_cleaned, none)
    else
      (some df, none)

/-- The state of the persisted CSV file as a loader finds it: absent,
present but unparseable (`pd.read_csv` raises), or valid with the given
rows. -/
inductive FileState
  | absent
  | corrupt
  | valid (records : List Record)

/-- The error a failing `pd.read_csv` (or datetime conversion) raises. -/
inductive ReadError
  | parseError
deriving DecidableEq, Repr

/-- `WeatherVisualizer.load_data()` (`src/visualizer.py`).  Missing
file: prints and returns `False`, leaving `self.df = None`.  Parse
failure: no `try`/`except` around `pd.read_csv`, so the exception
propagates (`Except.error`).  Success: returns `True` with the loaded
rows in `self.df`.  Result payload: (return value, `self.df`). -/
def visualizer_load_data : FileState → Except ReadError (Bool × Option (List Record))
  | .absent => .ok (false, none)
  | .corrupt => .error .parseError
  | .valid rs => .ok (true, some rs)

/-- `StreamlitWeatherDashboard.load_data()` (`streamlit_app.py`).
Missing file: shows `st.error` and returns `None`.  Any exception while
reading is caught by the surrounding `try`/`except`, shown via
`st.error` and converted to a `None` return — nothing propagates.
Success: returns the loaded frame. -/
def streamlit_load_data : FileState → Except ReadError (Option (List Record))
  | .absent => .ok none
  | .corrupt => .ok none
  | .valid rs => .ok (some rs)

/-- `data_type` argument of `extract_weather_data`. -/
inductive DataType
  | current
  | forecast
deriving DecidableEq, Repr

/-- `raw_data['main']` of an OpenWeatherMap payload. -/
structure RawMain where
  temp : ℚ
  feels_like : ℚ
  temp_min : ℚ
  temp_max : ℚ
  humidity : ℤ
  pressure : ℤ

/-- `raw_data['weather'][0]`. -/
structure RawWeather where
  main : String
  description : String

/-- `raw_data['wind']`; either key may be missing. -/
structure RawWind where
  speed : Option ℚ
  deg : Option ℤ

/-- `raw_data['clouds']`; the `all` key may be missing. -/
structure RawClouds where
  all : Option ℤ

/-- `raw_data['sys']` sun times (epoch seconds), current payloads. -/
structure RawSys where
  sunrise : ℤ
  sunset : ℤ

/-- A raw API payload with the fields `extract_weather_data` reads.
Required keys (the code indexes them directly and would raise on a
malformed payload) are plain fields; keys accessed through `.get` with
a default are `Option`s.  `name`/`sys` are read only on the `current`
branch, `dt` only on the `forecast` branch. -/
structure RawData where
  name : String
  main : RawMain
  weather0 : RawWeather
  wind : Option RawWind
  clouds : Option RawClouds
  visibility : Option ℤ
  sys : RawSys
  dt : ℤ

/-- Ambient runtime effects of `extract_weather_data`: the wall clock
(`datetime.now()` in the three formats used) and local-time rendering of
epoch seconds (`datetime.fromtimestamp(..).strftime(..)`). -/
structure Env where
  city : String
  nowTimestamp : String
  nowDate : String
  nowTime : String
  fmtTimeOfDay : ℤ → String
  fmtTimestamp : ℤ → String
  fmtDate : ℤ → String
  fmtTime : ℤ → String

/-- `WeatherDataCollector.extract_weather_data(raw_data, data_type)`.
`raw_data = none` models a falsy payload (`if not raw_data: return
None`).  The `current` branch stamps the record with the wall clock and
defaults missing wind/cloud/visibility data to 0 (`visibility` is
`raw_data.get('visibility', 0) / 1000`).  The `forecast` branch derives
the timestamp from the payload's `dt`, uses fixed placeholder sun
times, and computes `raw_data.get('visibility', 10) / 1000 if
raw_data.get('visibility') else 10`: Python takes the `else 10` branch
when the key is absent (`None`) or its value is `0` (both falsy). -/
def extract_weather_data (env : Env) (raw_data : Option RawData)
    (data_type : DataType) : Option Record :=
  match raw_data with
  | none => none
  | some rd =>
    match data_type with
    | .current => some {
        timestamp := env.nowTimestamp
        date := env.nowDate
        time := env.nowTime
        city := rd.name
        temperature := rd.main.temp
        feels_like := rd.main.feels_like
        temp_min := rd.main.temp_min
        temp_max := rd.main.temp_max
        humidity := rd.main.humidity
        pressure := rd.main.pressure
        weather_main := rd.weather0.main
        weather_description := rd.weather0.description
        wind_speed := (rd.wind.bind RawWind.speed).getD 0
        wind_direction := (rd.wind.bind RawWind.deg).getD 0
        cloudiness := (rd.clouds.bind RawClouds.all).getD 0
        visibility := ((rd.visibility.getD 0 : ℤ) : ℚ) / 1000
        sunrise := env.fmtTimeOfDay rd.sys.sunrise
        sunset := env.fmtTimeOfDay rd.sys.sunset
        data_type := "current" }
    | .forecast => some {
        timestamp := env.fmtTimestamp rd.dt
        date := env.fmtDate rd.dt
        time := env.fmtTime rd.dt
        city := env.city
        temperature := rd.main.temp
        feels_like := rd.main.feels_like
        temp_min := rd.main.temp_min
        temp_max := rd.main.temp_max
        humidity := rd.main.humidity
        pressure := rd.main.pressure
        weather_main := rd.weather0.main
        weather_description := rd.weather0.description
        wind_speed := (rd.wind.bind RawWind.speed).getD 0
        wind_direction := (rd.wind.bind RawWind.deg).getD 0
        cloudiness := (rd.clouds.bind RawClouds.all).getD 0
        visibility :=
          match rd.visibility with
          | some v => if v = 0 then 10 else ((v : ℚ) / 1000)
          | none => 10
        sunrise := "06:00:00"
        sunset := "20:00:00"
        data_type := "forecast" }

/-- A fixed runtime environment used to instantiate normalizer theorems
on concrete inputs. -/
def envDefault : Env where
  city := "Hamburg"
  nowTimestamp := "2024-01-01 10:15:00"
  nowDate := "2024-01-01"
  nowTime := "10:15:00"
  fmtTimeOfDay := fun _ => "06:00:00"
  fmtTimestamp := fun _ => "2024-01-01 12:00:00"
  fmtDate := fun _ => "2024-01-01"
  fmtTime := fun _ => "12:00:00"

/-- A concrete raw payload carrying all required keys but none of the
optional `wind`/`clouds`/`visibility` keys. -/
def rdBare : RawData where
  name := "Hamburg"
  main := { temp := 21, feels_like := 20, temp_min := 18, temp_max := 23,
            humidity := 60, pressure := 1013 }
  weather0 := { main := "Clouds", description := "scattered clouds" }
  wind := none
  clouds := none
  visibility := none
  sys := { sunrise := 1704088800, sunset := 1704117600 }
  dt := 1704103200

/-- C1 (counterexample): `save_to_csv` does not key on the record's own
hour.  Store: one record in hour `2024-01-01 10`; appended record: same
hour `2024-01-01 10`, so the claim demands a suppressed duplicate
(no-op, `false`); but with the wall clock at `2024-01-02 05:00:00` the
code appends the record and returns `true`. -/
theorem save_to_csv_record_hour_refuted :
    hourKey (mkR "2024-01-01 10:15:00").timestamp
        ∈ [mkR "2024-01-01 10:30:00"].map (fun r => hourKey r.timestamp) ∧
    save_to_csv "2024-01-02 05:00:00" (some (mkR "2024-01-01 10:15:00"))
        (some [mkR "2024-01-01 10:30:00"])
      = (some [mkR "2024-01-01 10:30:00", mkR "2024-01-01 10:15:00"], true) := by
  decide

/-- C1 (amended): `save_to_csv` keys de-duplication on the hour of the
current wall clock `now`, not on the record's own timestamp hour: if any
stored record's hour-truncated timestamp equals `hourKey now` the call
is a no-op returning `false`, otherwise it appends and returns `true`;
consequently, appending a "current" record (whose timestamp is the
ingestion instant `now`) and then appending again at any instant within
the same clock hour stores the record exactly once for that hour. -/
theorem save_to_csv_wallclock_hour_dedup (now : String) (r : Record) (l : List Record) :
    (hourKey now ∈ l.map (fun x => hourKey x.timestamp) →
      save_to_csv now (some r) (some l) = (some l, false)) ∧
    (hourKey now ∉ l.map (fun x => hourKey x.timestamp) →
      save_to_csv now (some r) (some l) = (some (l ++ [r]), true)) ∧
    (r.timestamp = now → hourKey now ∉ l.map (fun x => hourKey x.timestamp) →
      ∀ (r' : Record) (now' : String), hourKey now' = hourKey now →
        save_to_csv now' (some r') (some (l ++ [r])) = (some (l ++ [r]), false) ∧
        ((l ++ [r]).filter (fun x => hourKey x.timestamp = hourKey now)).length = 1) := by
  refine ⟨fun h => by simp [save_to_csv, h], fun h => by simp [save_to_csv, h], ?_⟩
  intro hr h r' now' hk
  have hmem : hourKey now' ∈ List.map (fun x => hourKey x.timestamp) (l ++ [r]) := by
    simp [hk, hr]
  have hfl : l.filter (fun x => hourKey x.timestamp = hourKey now) = [] := by
    refine List.filter_eq_nil_iff.mpr fun a ha => ?_
    simp only [decide_eq_true_eq]
    exact fun hc => h (List.mem_map.mpr ⟨a, ha, hc⟩)
  constructor
  · simp only [save_to_csv]
    rw [if_pos hmem]
  · rw [List.filter_append, hfl]
    simp [hr]

/-- C1 (witness): the spec §8 scenario on concrete data.  A record at
`2024-01-01 10:15:00` appended to an empty store at that instant goes
in; a second append at `2024-01-01 10:45:00` (same clock hour) is
rejected and the store holds exactly one record for hour
`2024-01-01 10`; and a store already holding wall-clock-hour data
rejects an append regardless of the record. -/
theorem save_to_csv_wallclock_hour_dedup_witness :
    (save_to_csv "2024-01-01 10:45:00" (some (mkR "2024-01-01 10:45:00"))
        (some [mkR "2024-01-01 10:30:00"]) = (some [mkR "2024-01-01 10:30:00"], false)) ∧
    (save_to_csv "2024-01-01 10:15:00" (some (mkR "2024-01-01 10:15:00")) (some [])
        = (some [mkR "2024-01-01 10:15:00"], true)) ∧
    (save_to_csv "2024-01-01 10:45:00" (some (mkR "2024-01-01 10:45:00"))
        (some [mkR "2024-01-01 10:15:00"])
        = (some [mkR "2024-01-01 10:15:00"], false) ∧
      ([mkR "2024-01-01 10:15:00"].filter
          (fun x => hourKey x.timestamp = hourKey "2024-01-01 10:15:00")).length = 1) := by
  refine ⟨?_, ?_, ?_⟩
  · exact (save_to_csv_wallclock_hour_dedup "2024-01-01 10:45:00" (mkR "2024-01-01 10:45:00")
      [mkR "2024-01-01 10:30:00"]).1 (by decide)
  · simpa using (save_to_csv_wallclock_hour_dedup "2024-01-01 10:15:00"
      (mkR "2024-01-01 10:15:00") []).2.1 (by decide)
  · simpa using (save_to_csv_wallclock_hour_dedup "2024-01-01 10:15:00"
      (mkR "2024-01-01 10:15:00") []).2.2 rfl (by decide)
      (mkR "2024-01-01 10:45:00") "2024-01-01 10:45:00" (by decide)

/-- C2 (counterexample): a batch of two genuinely new records against a
one-record store.  Both records are inserted and the store is re-sorted,
but `save_multiple_to_csv` returns the boolean `true` — numerically `1`
under Python's bool-to-int coercion — not the inserted count `2` the
claim promises. -/
theorem save_multiple_returns_bool_refuted :
    save_multiple_to_csv (some [mkR "2024-01-01 00:00:00"])
        [mkR "2024-01-01 01:00:00", mkR "2024-01-01 02:00:00"]
      = (some [mkR "2024-01-01 00:00:00", mkR "2024-01-01 01:00:00",
               mkR "2024-01-01 02:00:00"], true) ∧
    pyIntOfBool (save_multiple_to_csv (some [mkR "2024-01-01 00:00:00"])
        [mkR "2024-01-01 01:00:00", mkR "2024-01-01 02:00:00"]).2 ≠ 2 := by
  decide

/-- C2 (amended): `save_multiple_to_csv` keeps exactly the batch records
whose exact timestamp string is not already in the store (so two
same-hour forecast records with distinct exact timestamps both
survive), appends the survivors, re-sorts the whole store by timestamp
and persists it; but it returns a boolean — `true` iff at least one
record was newly inserted — not the inserted count. -/
theorem save_multiple_exact_ts_filter_sort (l ws : List Record) :
    (ws.filter (fun w => w.timestamp ∉ l.map Record.timestamp) = [] →
      save_multiple_to_csv (some l) ws = (some l, false)) ∧
    (ws.filter (fun w => w.timestamp ∉ l.map Record.timestamp) ≠ [] →
      save_multiple_to_csv (some l) ws
        = (some (sortByTs (l ++ ws.filter (fun w => w.timestamp ∉ l.map Record.timestamp))),
           true)) := by
  cases ws with
  | nil => exact ⟨fun _ => rfl, fun h => absurd rfl h⟩
  | cons w ws' =>
    constructor
    · intro h
      simp only [save_multiple_to_csv, h, List.length_nil, gt_iff_lt, lt_self_iff_false,
        if_false]
    · intro h
      have hlen : 0 < ((w :: ws').filter
          (fun w => w.timestamp ∉ l.map Record.timestamp)).length :=
        List.length_pos.mpr h
      simp only [save_multiple_to_csv, gt_iff_lt, hlen, if_true]

/-- C2 (witness): two forecast records at `12:00:00` and `12:03:00` —
distinct exact timestamps inside one hour — both enter a store that
already holds a `09:00:00` record; the result is the sorted union and
the returned flag is `true`. -/
theorem save_multiple_exact_ts_filter_sort_witness :
    save_multiple_to_csv (some [mkR "2024-01-01 09:00:00"])
        [mkR "2024-01-01 12:00:00", mkR "2024-01-01 12:03:00"]
      = (some (sortByTs ([mkR "2024-01-01 09:00:00"] ++
          ([mkR "2024-01-01 12:00:00", mkR "2024-01-01 12:03:00"].filter
            (fun w => w.timestamp ∉ [mkR "2024-01-01 09:00:00"].map Record.timestamp)))),
         true) :=
  (save_multiple_exact_ts_filter_sort [mkR "2024-01-01 09:00:00"]
    [mkR "2024-01-01 12:00:00", mkR "2024-01-01 12:03:00"]).2 (by decide)

/-- C3 (counterexample): an unsorted two-record store (`2024-01-02`
before `2024-01-01`) receives a batch whose only record's timestamp is
already present.  The call is a pure no-op — the unsorted store is left
exactly as it was, with no re-sort — so a `load()` after this
`append_batch` call observes records out of timestamp order. -/
theorem append_batch_always_sorted_refuted :
    save_multiple_to_csv (some [mkR "2024-01-02 00:00:00", mkR "2024-01-01 00:00:00"])
        [mkR "2024-01-02 00:00:00"]
      = (some [mkR "2024-01-02 00:00:00", mkR "2024-01-01 00:00:00"], false) ∧
    ¬ List.Sorted tsLE [mkR "2024-01-02 00:00:00", mkR "2024-01-01 00:00:00"] := by
  constructor
  · decide
  · intro h
    exact absurd (List.rel_of_sorted_cons h (mkR "2024-01-01 00:00:00") (by simp))
      (by decide)

/-- C3 (amended): after any `save_multiple_to_csv` call that actually
inserts at least one record (returns `true`) — including the call that
first creates the file — the persisted store is in non-decreasing
timestamp order; a call that inserts nothing leaves the previous order
untouched. -/
theorem save_multiple_sorts_on_insert (file : Option (List Record)) (ws : List Record)
    (h : (save_multiple_to_csv file ws).2 = true) :
    ∃ l', (save_multiple_to_csv file ws).1 = some l' ∧ List.Sorted tsLE l' := by
  cases ws with
  | nil => simp [save_multiple_to_csv] at h
  | cons w ws' =>
    cases file with
    | none => exact ⟨_, rfl, List.sorted_insertionSort tsLE _⟩
    | some l =>
      by_cases hlen : ((w :: ws').filter
          (fun r => r.timestamp ∉ l.map Record.timestamp)).length > 0
      · refine ⟨sortByTs (l ++ (w :: ws').filter
          (fun r => r.timestamp ∉ l.map Record.timestamp)), ?_,
          List.sorted_insertionSort tsLE _⟩
        simp only [save_multiple_to_csv, hlen, if_true]
      · simp only [save_multiple_to_csv, hlen, if_false] at h
        exact absurd h (by decide)

/-- C3 (witness): a batch with one old and one new timestamp against a
sorted two-record store inserts the new record and yields a sorted
store. -/
theorem save_multiple_sorts_on_insert_witness :
    ∃ l', (save_multiple_to_csv (some [mkR "2024-01-01 00:00:00", mkR "2024-01-03 00:00:00"])
        [mkR "2024-01-01 00:00:00", mkR "2024-01-02 00:00:00"]).1 = some l' ∧
      List.Sorted tsLE l' :=
  save_multiple_sorts_on_insert
    (some [mkR "2024-01-01 00:00:00", mkR "2024-01-03 00:00:00"])
    [mkR "2024-01-01 00:00:00", mkR "2024-01-02 00:00:00"] (by decide)

/-- C4 (counterexample): pruning a two-record store at a cutoff equal to
the newer record's timestamp removes exactly one record — but the
function's return value is `none` (Python `None`): `cleanup_old_data`
only logs the removed count, it does not return the integer `1` the
claim promises. -/
theorem prune_returns_count_refuted :
    cleanup_old_data (some [mkR "2024-01-01 00:00:00", mkR "2024-02-01 00:00:00"])
        "2024-02-01 00:00:00"
      = (some [mkR "2024-02-01 00:00:00"], none) ∧
    (cleanup_old_data (some [mkR "2024-01-01 00:00:00", mkR "2024-02-01 00:00:00"])
        "2024-02-01 00:00:00").2 ≠ some 1 := by
  decide

/-- C4 (amended): `cleanup_old_data` deletes exactly the records whose
timestamp is strictly before the cutoff and retains every record whose
timestamp equals or exceeds it (boundary records kept); the number of
removed records is only logged — the function returns `None`, not an
integer count. -/
theorem cleanup_old_data_prunes_strictly_before (l : List Record) (cutoff : String) :
    ∃ l', cleanup_old_data (some l) cutoff = (some l', none) ∧
      (∀ r ∈ l, tsLeB cutoff r.timestamp = true → r ∈ l') ∧
      (∀ r ∈ l, tsLeB cutoff r.timestamp = false → r ∉ l') ∧
      (∀ r ∈ l', r ∈ l ∧ tsLeB cutoff r.timestamp = true) ∧
      l'.length + (l.filter (fun r => ! tsLeB cutoff r.timestamp)).length = l.length := by
  have hfil : cleanup_old_data (some l) cutoff
      = (some (l.filter (fun r => tsLeB cutoff r.timestamp)), none) := by
    unfold cleanup_old_data
    by_cases hlt : (l.filter (fun r => tsLeB cutoff r.timestamp)).length < l.length
    · simp [hlt]
    · have hall : ∀ r ∈ l, tsLeB cutoff r.timestamp = true :=
        List.filter_length_eq_length.mp
          (le_antisymm (List.length_filter_le _ l) (not_lt.mp hlt))
      rw [List.filter_eq_self.mpr hall]
      simp [hlt]
  refine ⟨l.filter (fun r => tsLeB cutoff r.timestamp), hfil, ?_, ?_, ?_, ?_⟩
  · exact fun r hr hts => List.mem_filter.mpr ⟨hr, hts⟩
  · intro r _ hts hmem
    have := (List.mem_filter.mp hmem).2
    rw [hts] at this
    exact Bool.noConfusion this
  · exact fun r hr => List.mem_filter.mp hr
  · exact (@List.length_eq_length_filter_add Record l
      (fun r => tsLeB cutoff r.timestamp)).symm

/-- C4 (witness): on the two-record store with the cutoff at the newer
record's timestamp, the boundary record is retained and the strictly
older record is removed. -/
theorem cleanup_old_data_prunes_strictly_before_witness :
    ∃ l', cleanup_old_data (some [mkR "2024-01-01 00:00:00", mkR "2024-02-01 00:00:00"])
        "2024-02-01 00:00:00" = (some l', none) ∧
      mkR "2024-02-01 00:00:00" ∈ l' ∧ mkR "2024-01-01 00:00:00" ∉ l' := by
  obtain ⟨l', heq, hkeep, hdrop, -, -⟩ := cleanup_old_data_prunes_strictly_before
    [mkR "2024-01-01 00:00:00", mkR "2024-02-01 00:00:00"] "2024-02-01 00:00:00"
  exact ⟨l', heq, hkeep _ (by decide) (by decide), hdrop _ (by decide) (by decide)⟩

/-- C5 (counterexample): the dashboard's `load_data` does not propagate
a read failure.  On a present-but-unparseable file it catches the
exception, reports it to the UI, and returns `None` — a null result —
so the caller never sees the error. -/
theorem load_error_propagation_refuted :
    streamlit_load_data .corrupt = .ok none ∧
    streamlit_load_data .corrupt ≠ .error .parseError :=
  ⟨rfl, fun h => Except.noConfusion h⟩

/-- C5 (amended): when the persisted file is present but unparseable,
the visualizer's `load_data` propagates the read error (it wraps no
handler around the read), while the dashboard's `load_data` catches any
exception and returns a null result instead of propagating. -/
theorem load_data_corrupt_split :
    visualizer_load_data .corrupt = .error .parseError ∧
    streamlit_load_data .corrupt = .ok none :=
  ⟨rfl, rfl⟩

/-- C6 (counterexample): with the store file absent, neither loader
returns an empty sequence of records: the dashboard's `load_data`
returns `None` and the visualizer's returns `False` leaving its data
frame `None` — both a null/absent result, not an empty sequence. -/
theorem load_empty_on_absent_refuted :
    streamlit_load_data .absent = .ok none ∧
    streamlit_load_data .absent ≠ .ok (some []) ∧
    visualizer_load_data .absent = .ok (false, none) ∧
    visualizer_load_data .absent ≠ .ok (true, some []) :=
  ⟨rfl, by simp [streamlit_load_data], rfl, by simp [visualizer_load_data]⟩

/-- C6 (amended): when no data has ever been persisted (file absent),
both loaders return a null/absent marker without raising an error: the
dashboard's `load_data` returns `None` (after showing a message) and
the visualizer's returns `False` with its data frame left `None`;
neither propagates an exception, and neither returns an empty
sequence. -/
theorem load_data_absent_returns_null :
    streamlit_load_data .absent = .ok none ∧
    visualizer_load_data .absent = .ok (false, none) ∧
    streamlit_load_data .absent ≠ .error .parseError ∧
    visualizer_load_data .absent ≠ .error .parseError :=
  ⟨rfl, rfl, fun h => Except.noConfusion h, fun h => Except.noConfusion h⟩

/-- C7 (confirmed): `extract_weather_data` returns `None` exactly when
the raw payload is empty/null, for either data type; on any non-empty
payload it totally produces a record, so the `None` is a "nothing to
normalize" signal rather than a raised error. -/
theorem extract_weather_data_none_iff (env : Env) (raw : Option RawData) (dt : DataType) :
    extract_weather_data env raw dt = none ↔ raw = none := by
  cases raw <;> cases dt <;> simp [extract_weather_data]

/-- C7 (witness): on a concrete environment, the empty payload yields
`None` and a concrete non-empty payload does not. -/
theorem extract_weather_data_none_iff_witness :
    extract_weather_data envDefault none DataType.current = none ∧
    extract_weather_data envDefault (some rdBare) DataType.forecast ≠ none :=
  ⟨(extract_weather_data_none_iff envDefault none DataType.current).mpr rfl,
   fun h => Option.noConfusion
     ((extract_weather_data_none_iff envDefault (some rdBare) DataType.forecast).mp h)⟩

/-- C8 (confirmed): on a payload missing the optional `wind`, `clouds`
and `visibility` keys, the `current` mapping defaults wind speed, wind
direction, cloudiness and visibility to 0, and the `forecast` mapping
defaults visibility to 10 km. -/
theorem extract_weather_data_defaults (env : Env) (rd : RawData)
    (hw : rd.wind = none) (hc : rd.clouds = none) (hv : rd.visibility = none) :
    ∃ rc rf : Record,
      extract_weather_data env (some rd) DataType.current = some rc ∧
      extract_weather_data env (some rd) DataType.forecast = some rf ∧
      rc.wind_speed = 0 ∧ rc.wind_direction = 0 ∧ rc.cloudiness = 0 ∧
      rc.visibility = 0 ∧ rf.visibility = 10 := by
  refine ⟨_, _, rfl, rfl, ?_, ?_, ?_, ?_, ?_⟩ <;>
    simp [extract_weather_data, hw, hc, hv]

/-- C8 (witness): the defaults on a concrete optional-field-free
payload in a concrete environment. -/
theorem extract_weather_data_defaults_witness :
    ∃ rc rf : Record,
      extract_weather_data envDefault (some rdBare) DataType.current = some rc ∧
      extract_weather_data envDefault (some rdBare) DataType.forecast = some rf ∧
      rc.wind_speed = 0 ∧ rc.wind_direction = 0 ∧ rc.cloudiness = 0 ∧
      rc.visibility = 0 ∧ rf.visibility = 10 :=
  extract_weather_data_defaults envDefault rdBare rfl rfl rfl

/-- C9 (confirmed): when every record of a non-empty batch carries a
timestamp already present in the store, `save_multiple_to_csv` returns
the no-insert result `false` and leaves the stored list exactly as it
was — no rewrite, no re-sort — so a previously unsorted store stays
unsorted. -/
theorem save_multiple_all_duplicates_noop (l ws : List Record) (hne : ws ≠ [])
    (hdup : ∀ w ∈ ws, w.timestamp ∈ l.map Record.timestamp) :
    save_multiple_to_csv (some l) ws = (some l, false) := by
  cases ws with
  | nil => exact absurd rfl hne
  | cons w ws' =>
    have hfil : (w :: ws').filter (fun r => r.timestamp ∉ l.map Record.timestamp) = [] := by
      refine List.filter_eq_nil_iff.mpr fun a ha hcontra => ?_
      rw [decide_eq_true_eq] at hcontra
      exact hcontra (hdup a ha)
    simp only [save_multiple_to_csv, hfil, List.length_nil, gt_iff_lt, lt_self_iff_false,
      if_false]

/-- C9 (witness): a two-record store in descending (unsorted) order and
a non-empty batch of already-present timestamps: the call returns
`false` and the store keeps its unsorted order byte for byte. -/
theorem save_multiple_all_duplicates_noop_witness :
    save_multiple_to_csv (some [mkR "2024-01-02 00:00:00", mkR "2024-01-01 00:00:00"])
        [mkR "2024-01-01 00:00:00", mkR "2024-01-02 00:00:00"]
      = (some [mkR "2024-01-02 00:00:00", mkR "2024-01-01 00:00:00"], false) :=
  save_multiple_all_duplicates_noop
    [mkR "2024-01-02 00:00:00", mkR "2024-01-01 00:00:00"]
    [mkR "2024-01-01 00:00:00", mkR "2024-01-02 00:00:00"]
    (by decide) (by decide)

/-- C10 (confirmed): `save_multiple_to_csv` filters only against
timestamps already persisted, never within the batch: a batch holding
two records with the same fresh timestamp gets both inserted, so the
store ends up with two rows for one exact timestamp — exact-timestamp
uniqueness is not an invariant of the store. -/
theorem save_multiple_no_intra_batch_dedup :
    save_multiple_to_csv (some [mkR "2024-01-01 00:00:00"])
        [mkR "2024-01-01 01:00:00", mkR "2024-01-01 01:00:00"]
      = (some [mkR "2024-01-01 00:00:00", mkR "2024-01-01 01:00:00",
               mkR "2024-01-01 01:00:00"], true) ∧
    ([mkR "2024-01-01 00:00:00", mkR "2024-01-01 01:00:00",
      mkR "2024-01-01 01:00:00"].filter
        (fun r => r.timestamp = "2024-01-01 01:00:00")).length = 2 := by
  decide

end Weather
